import Mathlib

/-!
Verification of the data-preparation pipeline of the pastoralist
conflict early-warning dashboards (`src/streamlit_app.py` and
`src/streamlit1_app.py`), as a shallow embedding in Lean 4.

Conventions of the embedding:
* A pandas `DataFrame` is a `List` of row structures; boolean-mask
  filtering is `List.filter`.
* Probabilities (floats in the source) are embedded as `ℚ`; no claim
  here depends on floating-point rounding.
* A nullable column (NaN produced by a left join) is `Option ℚ`;
  pandas `.mean()` skips nulls, which `colMean` mirrors.
* The text content of the CSV download (`DataFrame.to_csv`) is modelled
  by the list of rows it serialises.
* File reads that can raise are embedded as `Except String _` values
  passed to the loader.
-/

namespace Pipeline

/-- A row of the enhanced tabular dataset `{county}_hotspot_enhanced.csv`
read by `streamlit1_app.py` (before the geo merge). -/
structure RawRow where
  cell_id : Nat
  mid_date : String
  p_hotspot_next : ℚ
  anomaly_prob_norm : ℚ
  deriving DecidableEq, Repr

/-- A point of `{county}_hotspot_forecast.geojson` after `to_crs(4326)`
and extraction of `lon`/`lat` scalars (`streamlit1_app.py` lines 58-60). -/
structure GeoPoint where
  cell_id : Nat
  lon : ℚ
  lat : ℚ
  deriving DecidableEq, Repr

/-- A row of the merged frame of `streamlit1_app.py` (line 62): tabular
attributes plus nullable coordinates from the left join. -/
structure Row1 where
  cell_id : Nat
  mid_date : String
  p_hotspot_next : ℚ
  anomaly_prob_norm : ℚ
  lon : Option ℚ
  lat : Option ℚ
  deriving DecidableEq, Repr

/-- `df.merge(gdf[["cell_id", "lon", "lat"]], on="cell_id", how="left")`
(`streamlit1_app.py` line 62): every tabular row is kept; each match in
the geo frame produces one output row; a row with no match gets null
coordinates. -/
def mergeLeft (df : List RawRow) (g : List GeoPoint) : List Row1 :=
  df.flatMap (fun r =>
    match g.filter (fun p => p.cell_id == r.cell_id) with
    | [] => [⟨r.cell_id, r.mid_date, r.p_hotspot_next, r.anomaly_prob_norm, none, none⟩]
    | ms => ms.map (fun p =>
        ⟨r.cell_id, r.mid_date, r.p_hotspot_next, r.anomaly_prob_norm, some p.lon, some p.lat⟩))

/-- The three options of the "View mode" selectbox
(`streamlit1_app.py` lines 72-75). -/
inductive LayerMode where
  | hotspotOnly
  | mobilityOnly
  | combined
  deriving DecidableEq, Repr

/-- The threshold filter of `streamlit1_app.py` lines 81-93: boolean-mask
selection per view mode, with `>=` comparisons. -/
def df_view (mode : LayerMode) (hotspot_threshold anomaly_threshold : ℚ)
    (df : List Row1) : List Row1 :=
  match mode with
  | .hotspotOnly => df.filter (fun r => hotspot_threshold ≤ r.p_hotspot_next)
  | .mobilityOnly => df.filter (fun r => anomaly_threshold ≤ r.anomaly_prob_norm)
  | .combined => df.filter (fun r =>
      decide (hotspot_threshold ≤ r.p_hotspot_next) &&
      decide (anomaly_threshold ≤ r.anomaly_prob_norm))

/-- A view row as carried to the map/table/download: the merged columns
plus the `compound_risk` column, present only in combined mode. -/
structure RowV where
  cell_id : Nat
  mid_date : String
  p_hotspot_next : ℚ
  anomaly_prob_norm : ℚ
  lon : Option ℚ
  lat : Option ℚ
  compound_risk : Option ℚ
  deriving DecidableEq, Repr

/-- Column selection of `streamlit1_app.py` lines 102-109: in combined
mode `df_view["compound_risk"] = df_view["p_hotspot_next"] *
df_view["anomaly_prob_norm"]` is added; otherwise no such column exists. -/
def withCompound (mode : LayerMode) (l : List Row1) : List RowV :=
  l.map (fun r =>
    ⟨r.cell_id, r.mid_date, r.p_hotspot_next, r.anomaly_prob_norm, r.lon, r.lat,
      if mode = .combined then some (r.p_hotspot_next * r.anomaly_prob_norm) else none⟩)

/-- The weight field chosen for the heat layer
(`streamlit1_app.py` lines 102-109). -/
def weight_field (mode : LayerMode) : String :=
  match mode with
  | .hotspotOnly => "p_hotspot_next"
  | .mobilityOnly => "anomaly_prob_norm"
  | .combined => "compound_risk"

/-- pandas column `.mean()`: the arithmetic mean of the non-null entries,
null when there are none (`streamlit1_app.py` lines 111-112 apply it to
the `lat`/`lon` columns of the full merged frame). -/
def colMean (xs : List (Option ℚ)) : Option ℚ :=
  match xs.filterMap id with
  | [] => none
  | v => some (v.sum / v.length)

/-- Camera center of `streamlit1_app.py` lines 111-112:
`center_lat = df["lat"].mean()`, `center_lon = df["lon"].mean()`,
computed on the full merged frame, before any threshold filter. -/
def center1 (df : List Row1) : Option ℚ × Option ℚ :=
  (colMean (df.map Row1.lat), colMean (df.map Row1.lon))

/-- The table/download pipeline outputs of `streamlit1_app.py` that
depend on the loaded data: the filtered view rows (with the compound
column in combined mode), the heat-layer weight field, the sorted and
truncated display table, the download rows, and the camera center. -/
structure Output1 where
  viewRows : List RowV
  weight : String
  tableRows : List RowV
  downloadRows : List RowV
  center : Option ℚ × Option ℚ
  deriving DecidableEq, Repr

/-- The boundary polygon of `streamlit1_app.py` as loaded (a dissolved
geometry); it is modelled by its exterior ring since no later line of
that script reads it. -/
def Boundary1 : Type := List (ℚ × ℚ)

/-- The whole post-load pipeline of `streamlit1_app.py` (lines 58-160):
merge, threshold filter, compound column, weight field, display table
(sorted descending by `p_hotspot_next`, first 30 rows), download rows,
camera center.  The loaded boundary is part of the input triple, exactly
as `load_data` returns it. -/
def run1 (loaded : List RawRow × List GeoPoint × Option Boundary1)
    (mode : LayerMode) (hotspot_threshold anomaly_threshold : ℚ) : Output1 :=
  let df := mergeLeft loaded.1 loaded.2.1
  let v := withCompound mode (df_view mode hotspot_threshold anomaly_threshold df)
  { viewRows := v
    weight := weight_field mode
    tableRows := (v.mergeSort (fun a b => b.p_hotspot_next ≤ a.p_hotspot_next)).take 30
    downloadRows := v
    center := center1 df }

/-- A point row of `streamlit_app.py` after `to_crs(4326)` and `lon`/`lat`
extraction (lines 55-57): the forecast attributes live directly on the
point frame there. -/
structure GRow where
  cell_id : Nat
  p_hotspot_next : ℚ
  lon : ℚ
  lat : ℚ
  deriving DecidableEq, Repr

/-- `gpd.sjoin(gdf, boundary, "within", how="inner")` against the
dissolved single-feature boundary (`streamlit_app.py` lines 59-61),
guarded by `boundary is not None and len(boundary)`.  The dissolved
boundary is modelled by its point-membership test; with one boundary
feature the inner join keeps each point at most once. -/
def spatial_filter (boundary : Option ((ℚ × ℚ) → Bool)) (pts : List GRow) :
    List GRow :=
  match boundary with
  | none => pts
  | some within => pts.filter (fun r => within (r.lon, r.lat))

/-- The threshold filter of `streamlit_app.py` line 64:
`gdf_view = gdf[gdf["p_hotspot_next"] >= threshold]`. -/
def gdf_view (threshold : ℚ) (g : List GRow) : List GRow :=
  g.filter (fun r => threshold ≤ r.p_hotspot_next)

/-- The flagged-cells count displayed by `streamlit_app.py` line 150:
`(gdf["p_hotspot_next"] >= threshold).sum()` over the (spatially
filtered) point frame. -/
def flaggedCount (threshold : ℚ) (g : List GRow) : Nat :=
  (g.filter (fun r => threshold ≤ r.p_hotspot_next)).length

/-- `total_bounds` of a point frame: `(minx, miny, maxx, maxy)` of the
`lon`/`lat` coordinates.  Only evaluated on nonempty frames in the
source (guarded by `len(gdf)`); on an empty list it folds from the empty
default `(0,0,0,0)`. -/
def total_bounds (g : List GRow) : ℚ × ℚ × ℚ × ℚ :=
  match g with
  | [] => (0, 0, 0, 0)
  | r :: rs =>
    (rs.foldl (fun m x => min m x.lon) r.lon,
     rs.foldl (fun m x => min m x.lat) r.lat,
     rs.foldl (fun m x => max m x.lon) r.lon,
     rs.foldl (fun m x => max m x.lat) r.lat)

/-- Bounds selection of `streamlit_app.py` lines 67-72: the boundary's
`total_bounds` when a boundary is present, else the point frame's
`total_bounds` when it is nonempty, else the fixed fallback
`(35.0, 2.0, 37.0, 5.0)`.  The boundary is modelled by its
`total_bounds` tuple, which is all those lines read from it. -/
def viewBounds (boundary : Option (ℚ × ℚ × ℚ × ℚ)) (g : List GRow) :
    ℚ × ℚ × ℚ × ℚ :=
  match boundary with
  | some b => b
  | none => if g.isEmpty then (35, 2, 37, 5) else total_bounds g

/-- Camera center of `streamlit_app.py` lines 73-74:
`center_lat = (miny + maxy)/2`, `center_lon = (minx + maxx)/2`;
returned as `(center_lat, center_lon)`. -/
def centerApp (boundary : Option (ℚ × ℚ × ℚ × ℚ)) (g : List GRow) : ℚ × ℚ :=
  let bnds := viewBounds boundary g
  ((bnds.2.1 + bnds.2.2.2) / 2, (bnds.1 + bnds.2.2.1) / 2)

/-- The `GridCellLayer` fill color of `streamlit_app.py` lines 104-120:
a chain of `p_hotspot_next >= 0.80 / 0.60 / 0.40` ternaries per channel,
with constant alpha 200.  Returns `(r, g, b, a)`. -/
def get_fill_color (p : ℚ) : Nat × Nat × Nat × Nat :=
  ((if 8/10 ≤ p then 220 else if 6/10 ≤ p then 255 else if 4/10 ≤ p then 255 else 150),
   (if 8/10 ≤ p then 50 else if 6/10 ≤ p then 127 else if 4/10 ≤ p then 215 else 150),
   (if 8/10 ≤ p then 47 else if 6/10 ≤ p then 0 else if 4/10 ≤ p then 0 else 150),
   200)

/-- The legend swatches of `streamlit_app.py` lines 154-164, as the RGB
decodings of the hex colors in the markdown: `#969696` (< 0.40 Low),
`#FFD700` (0.40-0.59 Moderate), `#FF7F00` (0.60-0.79 High),
`#DC3230` (>= 0.80 Very High). -/
def legendLow : Nat × Nat × Nat := (0x96, 0x96, 0x96)

/-- Legend swatch `#FFD700`, labelled "0.40-0.59 Moderate". -/
def legendModerate : Nat × Nat × Nat := (0xFF, 0xD7, 0x00)

/-- Legend swatch `#FF7F00`, labelled "0.60-0.79 High". -/
def legendHigh : Nat × Nat × Nat := (0xFF, 0x7F, 0x00)

/-- Legend swatch `#DC3230`, labelled ">= 0.80 Very High". -/
def legendVeryHigh : Nat × Nat × Nat := (0xDC, 0x32, 0x30)

/-- The RGB part of a fill color. -/
def rgbOf (c : Nat × Nat × Nat × Nat) : Nat × Nat × Nat :=
  (c.1, c.2.1, c.2.2.1)

/-- A row of the tabular file `{county}_hotspot_forecast.csv` read by
`streamlit_app.py` line 32. -/
structure TRow where
  cell_id : Nat
  mid_date : String
  p_hotspot_next : ℚ
  deriving DecidableEq, Repr

/-- The download of `streamlit_app.py` lines 172-176:
`df.to_csv(index=False)` of the full loaded table, modelled by its rows.
No filter is applied to it. -/
def downloadApp (df : List TRow) : List TRow :=
  df

/-- The displayed table of `streamlit_app.py` line 170:
`df.sort_values("p_hotspot_next", ascending=False).head(20)`. -/
def tableApp (df : List TRow) : List TRow :=
  (df.mergeSort (fun a b => b.p_hotspot_next ≤ a.p_hotspot_next)).take 20

/-- The download of `streamlit1_app.py` lines 155-160:
`df_view.to_csv(index=False)` of the filtered view (with the compound
column when present), modelled by its rows. -/
def download1 (mode : LayerMode) (hotspot_threshold anomaly_threshold : ℚ)
    (df : List Row1) : List RowV :=
  withCompound mode (df_view mode hotspot_threshold anomaly_threshold df)

/-- `load_data` of `streamlit1_app.py` lines 32-50: read the enhanced
CSV, then the geo points (either failure propagates), then try the
boundary, turning any failure into `None`. -/
def load_data1 (readCsv : Except String (List RawRow))
    (readGeo : Except String (List GeoPoint))
    (readBoundary : Except String Boundary1) :
    Except String (List RawRow × List GeoPoint × Option Boundary1) :=
  match readCsv with
  | .error e => .error e
  | .ok df =>
    match readGeo with
    | .error e => .error e
    | .ok gdf =>
      .ok (df, gdf,
        match readBoundary with
        | .ok b => some b
        | .error _ => none)

/-- The boundary of `streamlit_app.py` as consumed downstream: its
point-membership test (for the spatial join) and its `total_bounds`
(for centering). -/
structure BoundaryApp where
  within : (ℚ × ℚ) → Bool
  bounds : ℚ × ℚ × ℚ × ℚ

/-- `load_data` of `streamlit_app.py` lines 25-42: read the geo points,
then the CSV table (either failure propagates), then try the boundary
(`read_file`, `to_crs`, `dissolve`), turning any failure into `None`. -/
def load_dataApp (readGeo : Except String (List GRow))
    (readCsv : Except String (List TRow))
    (readBoundary : Except String BoundaryApp) :
    Except String (List GRow × List TRow × Option BoundaryApp) :=
  match readGeo with
  | .error e => .error e
  | .ok gdf_points =>
    match readCsv with
    | .error e => .error e
    | .ok df_table =>
      .ok (gdf_points, df_table,
        match readBoundary with
        | .ok b => some b
        | .error _ => none)

/-- The `cell_id` column of a list of merged rows. -/
def cellIds (l : List Row1) : List Nat :=
  l.map Row1.cell_id

/-- Modelled from the spec: the midpoint of a coordinate extent, written
to the spec's words ("midpoint of the full data's coordinate extent") to
be compared against what the code computes.  `none` when the column has
no non-null entry. -/
def specMidpoint (xs : List ℚ) : Option ℚ :=
  match xs with
  | [] => none
  | x :: r => some ((r.foldl min x + r.foldl max x) / 2)

/-- Modelled from the spec: the midpoint of the merged data's coordinate
extent, per coordinate, over the non-null entries; returned as
`(mid lat, mid lon)` to parallel `center1`. -/
def specExtentMidpoint (df : List Row1) : Option ℚ × Option ℚ :=
  (specMidpoint (df.filterMap Row1.lat), specMidpoint (df.filterMap Row1.lon))

/-- The spec's worked example: four cells with `p_hotspot_next`
`[0.9, 0.7, 0.5, 0.2]` and `anomaly_prob_norm` `[0.8, 0.3, 0.9, 0.1]`. -/
def exDf : List Row1 :=
  [⟨1, "a", 9/10, 8/10, none, none⟩,
   ⟨2, "b", 7/10, 3/10, none, none⟩,
   ⟨3, "c", 1/2, 9/10, none, none⟩,
   ⟨4, "d", 1/5, 1/10, none, none⟩]

/-- The combined-mode view row produced from the first cell of `exDf`. -/
def exRowV : RowV := ⟨1, "a", 9/10, 8/10, none, none, some (9/10 * (8/10))⟩

/-- Concrete tabular rows for `streamlit1_app.py`, three cells of equal
risk whose coordinates are fixed by `exGeo5`. -/
def exRaw5 : List RawRow := [⟨1, "a", 1/2, 1/2⟩, ⟨2, "b", 1/2, 1/2⟩, ⟨3, "c", 1/2, 1/2⟩]

/-- Concrete geo points at coordinates `(0,0)`, `(0,0)`, `(3,3)`: their
mean is `1` while the midpoint of their extent is `3/2`. -/
def exGeo5 : List GeoPoint := [⟨1, 0, 0⟩, ⟨2, 0, 0⟩, ⟨3, 3, 3⟩]

/-- A one-row tabular dataset whose `cell_id` has no geo match. -/
def exRaw7 : List RawRow := [⟨5, "e", 1/2, 1/2⟩]

/-- A geo frame without cell 5. -/
def exGeo7 : List GeoPoint := [⟨1, 0, 0⟩]

/-- A two-row table for `streamlit_app.py`, one cell above and one below
a 0.6 threshold. -/
def exTbl : List TRow := [⟨1, "a", 9/10⟩, ⟨2, "b", 1/5⟩]

/-- The matching two points for `streamlit_app.py`. -/
def exPts : List GRow := [⟨1, 9/10, 0, 0⟩, ⟨2, 1/5, 1, 1⟩]

/-- Membership in each of the three filtered views, unfolded. -/
theorem mem_df_view_iff (df : List Row1) (t1 t2 : ℚ) (r : Row1) :
    (r ∈ df_view .hotspotOnly t1 t2 df ↔ r ∈ df ∧ t1 ≤ r.p_hotspot_next) ∧
    (r ∈ df_view .mobilityOnly t1 t2 df ↔ r ∈ df ∧ t2 ≤ r.anomaly_prob_norm) ∧
    (r ∈ df_view .combined t1 t2 df ↔
        r ∈ df ∧ t1 ≤ r.p_hotspot_next ∧ t2 ≤ r.anomaly_prob_norm) := by
  refine ⟨?_, ?_, ?_⟩ <;> simp [df_view, List.mem_filter, and_assoc]

end Pipeline

namespace Claims

open Pipeline

/-- C1: for every merged dataset (with each `cell_id` appearing at most
once, the data-model invariant) and all thresholds `t1`, `t2`, the
combined-mode view contains exactly the rows with
`p_hotspot_next >= t1` and `anomaly_prob_norm >= t2`, and its `cell_id`
set is the intersection of the hotspot-only view's at `t1` and the
mobility-only view's at `t2`. -/
theorem combined_view_is_intersection (df : List Row1) (t1 t2 : ℚ)
    (hnd : (cellIds df).Nodup) :
    (∀ r, r ∈ df_view .combined t1 t2 df ↔
        r ∈ df ∧ t1 ≤ r.p_hotspot_next ∧ t2 ≤ r.anomaly_prob_norm) ∧
    (cellIds (df_view .combined t1 t2 df)).toFinset
      = (cellIds (df_view .hotspotOnly t1 t2 df)).toFinset
        ∩ (cellIds (df_view .mobilityOnly t1 t2 df)).toFinset := by
  constructor
  · exact fun r => (mem_df_view_iff df t1 t2 r).2.2
  · ext x
    simp only [Finset.mem_inter, List.mem_toFinset, cellIds, List.mem_map]
    constructor
    · rintro ⟨r, hr, rfl⟩
      rcases ((mem_df_view_iff df t1 t2 r).2.2.mp hr) with ⟨hmem, h1, h2⟩
      exact ⟨⟨r, (mem_df_view_iff df t1 t2 r).1.mpr ⟨hmem, h1⟩, rfl⟩,
             ⟨r, (mem_df_view_iff df t1 t2 r).2.1.mpr ⟨hmem, h2⟩, rfl⟩⟩
    · rintro ⟨⟨r1, hr1, hx1⟩, ⟨r2, hr2, hx2⟩⟩
      rcases (mem_df_view_iff df t1 t2 r1).1.mp hr1 with ⟨hm1, hp1⟩
      rcases (mem_df_view_iff df t1 t2 r2).2.1.mp hr2 with ⟨hm2, ha2⟩
      have heq : r1 = r2 :=
        List.inj_on_of_nodup_map hnd hm1 hm2 (hx1.trans hx2.symm)
      subst heq
      exact ⟨r1, (mem_df_view_iff df t1 t2 r1).2.2.mpr ⟨hm1, hp1, ha2⟩, hx1⟩

/-- Witness for `combined_view_is_intersection` at a concrete two-row
dataset with distinct cell ids and thresholds 0.6 and 0.5. -/
theorem combined_view_is_intersection_witness :
    (cellIds [⟨1, "a", 9/10, 8/10, none, none⟩,
              ⟨2, "b", 7/10, 3/10, none, none⟩]).Nodup ∧
    (cellIds (df_view .combined (6/10) (5/10)
        [⟨1, "a", 9/10, 8/10, none, none⟩,
         ⟨2, "b", 7/10, 3/10, none, none⟩])).toFinset
      = (cellIds (df_view .hotspotOnly (6/10) (5/10)
          [⟨1, "a", 9/10, 8/10, none, none⟩,
           ⟨2, "b", 7/10, 3/10, none, none⟩])).toFinset
        ∩ (cellIds (df_view .mobilityOnly (6/10) (5/10)
            [⟨1, "a", 9/10, 8/10, none, none⟩,
             ⟨2, "b", 7/10, 3/10, none, none⟩])).toFinset :=
  ⟨by decide,
   (combined_view_is_intersection
      [⟨1, "a", 9/10, 8/10, none, none⟩, ⟨2, "b", 7/10, 3/10, none, none⟩]
      (6/10) (5/10) (by decide)).2⟩

/-- C2: in combined mode every surviving row carries
`compound_risk = p_hotspot_next * anomaly_prob_norm`, and when both
inputs lie in `[0,1]` the product lies in `[0,1]` and is at most the
smaller factor. -/
theorem compound_risk_product_bounds (df : List Row1) (t1 t2 : ℚ)
    (hb : ∀ r ∈ df, 0 ≤ r.p_hotspot_next ∧ r.p_hotspot_next ≤ 1 ∧
        0 ≤ r.anomaly_prob_norm ∧ r.anomaly_prob_norm ≤ 1) :
    ∀ v ∈ withCompound .combined (df_view .combined t1 t2 df),
      v.compound_risk = some (v.p_hotspot_next * v.anomaly_prob_norm) ∧
      0 ≤ v.p_hotspot_next * v.anomaly_prob_norm ∧
      v.p_hotspot_next * v.anomaly_prob_norm ≤ 1 ∧
      v.p_hotspot_next * v.anomaly_prob_norm
        ≤ min v.p_hotspot_next v.anomaly_prob_norm := by
  intro v hv
  simp only [withCompound, List.mem_map] at hv
  obtain ⟨r, hr, rfl⟩ := hv
  have hrd : r ∈ df := ((mem_df_view_iff df t1 t2 r).2.2.mp hr).1
  obtain ⟨h0p, h1p, h0a, h1a⟩ := hb r hrd
  refine ⟨by simp, mul_nonneg h0p h0a,
    le_trans (mul_le_of_le_one_right h0p h1a) h1p, le_min ?_ ?_⟩
  · exact mul_le_of_le_one_right h0p h1a
  · exact mul_le_of_le_one_left h0a h1p

/-- Witness for `compound_risk_product_bounds`: the spec's four-cell
example at thresholds 0.6 and 0.5; the surviving cell's compound risk is
`0.72 = 9/10 * 8/10`. -/
theorem compound_risk_product_bounds_witness :
    exRowV.compound_risk
      = some (exRowV.p_hotspot_next * exRowV.anomaly_prob_norm) ∧
    0 ≤ exRowV.p_hotspot_next * exRowV.anomaly_prob_norm ∧
    exRowV.p_hotspot_next * exRowV.anomaly_prob_norm ≤ 1 ∧
    exRowV.p_hotspot_next * exRowV.anomaly_prob_norm
      ≤ min exRowV.p_hotspot_next exRowV.anomaly_prob_norm :=
  compound_risk_product_bounds exDf (6/10) (5/10)
    (by
      simp only [exDf, List.mem_cons, List.not_mem_nil, or_false]
      rintro r (rfl | rfl | rfl | rfl) <;> norm_num)
    exRowV
    (by norm_num [exRowV, exDf, withCompound, df_view, List.filter])

/-- C4: raising either threshold never increases the size of any of the
filtered views (both dashboards), and the boundary comparison is
inclusive: a row whose field exactly equals the threshold is kept. -/
theorem raising_thresholds_shrinks (df : List Row1) (g : List GRow)
    (mode : LayerMode) (t1 t1' t2 t2' : ℚ) (h1 : t1 ≤ t1') (h2 : t2 ≤ t2') :
    (df_view mode t1' t2' df).length ≤ (df_view mode t1 t2 df).length ∧
    (gdf_view t1' g).length ≤ (gdf_view t1 g).length ∧
    (∀ r ∈ df, r.p_hotspot_next = t1 → r ∈ df_view .hotspotOnly t1 t2 df) ∧
    (∀ r ∈ df, r.anomaly_prob_norm = t2 → r ∈ df_view .mobilityOnly t1 t2 df) ∧
    (∀ r ∈ df, r.p_hotspot_next = t1 → r.anomaly_prob_norm = t2 →
        r ∈ df_view .combined t1 t2 df) ∧
    (∀ r ∈ g, r.p_hotspot_next = t1 → r ∈ gdf_view t1 g) := by
  refine ⟨?_, ?_, ?_, ?_, ?_, ?_⟩
  · cases mode <;>
      refine List.Sublist.length_le (List.monotone_filter_right _ ?_) <;>
      intro a ha <;> simp only [decide_eq_true_eq, Bool.and_eq_true] at * <;>
      first
        | exact le_trans h1 ha
        | exact le_trans h2 ha
        | exact ⟨le_trans h1 ha.1, le_trans h2 ha.2⟩
  · refine List.Sublist.length_le (List.monotone_filter_right _ ?_)
    intro a ha
    simp only [decide_eq_true_eq] at *
    exact le_trans h1 ha
  · intro r hr hp
    exact (mem_df_view_iff df t1 t2 r).1.mpr ⟨hr, le_of_eq hp.symm⟩
  · intro r hr ha
    exact (mem_df_view_iff df t1 t2 r).2.1.mpr ⟨hr, le_of_eq ha.symm⟩
  · intro r hr hp ha
    exact (mem_df_view_iff df t1 t2 r).2.2.mpr
      ⟨hr, le_of_eq hp.symm, le_of_eq ha.symm⟩
  · intro r hr hp
    simp only [gdf_view, List.mem_filter, decide_eq_true_eq]
    exact ⟨hr, le_of_eq hp.symm⟩

/-- Witness for `raising_thresholds_shrinks`: the spec's four-cell
example with thresholds raised from 0.6/0.5 to 0.8/0.7. -/
theorem raising_thresholds_shrinks_witness :
    (df_view .combined (8/10) (7/10) exDf).length
      ≤ (df_view .combined (6/10) (5/10) exDf).length ∧
    (gdf_view (8/10) exPts).length ≤ (gdf_view (6/10) exPts).length :=
  have h := raising_thresholds_shrinks exDf exPts .combined
    (6/10) (8/10) (5/10) (7/10) (by norm_num) (by norm_num)
  ⟨h.1, h.2.1⟩

/-- C3 counterexample: in `streamlit_app.py` the download button serves
`df.to_csv` of the full table.  With two cells at 0.9 and 0.2 and
threshold 0.6, the download has 2 rows, keeps the below-threshold row,
and disagrees with the displayed flagged count of 1. -/
theorem download_not_filtered_view :
    (downloadApp exTbl).length = 2 ∧
    flaggedCount (6/10) exPts = 1 ∧
    (⟨2, "b", 1/5⟩ : TRow) ∈ downloadApp exTbl ∧
    ((1 : ℚ)/5 < 6/10) ∧
    (downloadApp exTbl).length ≠ flaggedCount (6/10) exPts := by
  refine ⟨rfl, ?_, by simp [downloadApp, exTbl], by norm_num, ?_⟩ <;>
    norm_num [downloadApp, exTbl, flaggedCount, exPts, List.filter]

/-- C3 amended: in `streamlit1_app.py` the download reproduces exactly
the rows (with the compound column when present) of the filtered view,
with matching row count; in `streamlit_app.py` the download is the full
unfiltered table, and the displayed flagged count equals the size of the
threshold-filtered point set, not the download's row count. -/
theorem download_matches_view_per_app (mode : LayerMode) (t1 t2 : ℚ)
    (df : List Row1) (tbl : List TRow) (g : List GRow) (t : ℚ)
    (raw : List RawRow) (geo : List GeoPoint) (bd : Option Boundary1) :
    download1 mode t1 t2 df = withCompound mode (df_view mode t1 t2 df) ∧
    (download1 mode t1 t2 df).length = (df_view mode t1 t2 df).length ∧
    (run1 (raw, geo, bd) mode t1 t2).downloadRows
      = (run1 (raw, geo, bd) mode t1 t2).viewRows ∧
    downloadApp tbl = tbl ∧
    flaggedCount t g = (gdf_view t g).length := by
  exact ⟨rfl, by simp [download1, withCompound], rfl, rfl, rfl⟩

/-- C5 counterexample: in `streamlit1_app.py`, with no boundary and
three merged points at coordinates 0, 0, 3, the camera centers on the
coordinate mean 1, not on the extent midpoint 3/2. -/
theorem center1_not_extent_midpoint :
    center1 (mergeLeft exRaw5 exGeo5) = (some 1, some 1) ∧
    specExtentMidpoint (mergeLeft exRaw5 exGeo5)
      = (some (3/2), some (3/2)) ∧
    center1 (mergeLeft exRaw5 exGeo5)
      ≠ specExtentMidpoint (mergeLeft exRaw5 exGeo5) := by
  norm_num [center1, colMean, specExtentMidpoint, specMidpoint, mergeLeft,
    exRaw5, exGeo5, List.filter, List.filterMap, List.flatMap]

/-- C5 amended: in `streamlit_app.py` the camera center is the midpoint
of the boundary's bounds when present, else of the point frame's bounds
when nonempty, else of the fixed fallback extent; in `streamlit1_app.py`
it is instead the arithmetic mean of the merged frame's non-null
coordinates, unaffected by boundary, mode, or thresholds. -/
theorem camera_center_amended (b : ℚ × ℚ × ℚ × ℚ) (g : List GRow)
    (raw : List RawRow) (geo : List GeoPoint) (bd : Option Boundary1)
    (mode : LayerMode) (t1 t2 : ℚ) (hg : g ≠ []) :
    centerApp (some b) g = ((b.2.1 + b.2.2.2) / 2, (b.1 + b.2.2.1) / 2) ∧
    centerApp none g
      = (((total_bounds g).2.1 + (total_bounds g).2.2.2) / 2,
         ((total_bounds g).1 + (total_bounds g).2.2.1) / 2) ∧
    centerApp none [] = ((2 + 5) / 2, (35 + 37) / 2) ∧
    (run1 (raw, geo, bd) mode t1 t2).center = center1 (mergeLeft raw geo) := by
  refine ⟨rfl, ?_, by norm_num [centerApp, viewBounds], rfl⟩
  obtain ⟨x, xs, rfl⟩ := List.exists_cons_of_ne_nil hg
  rfl

/-- Witness for `camera_center_amended` at the boundary bounds
`(35, 2, 37, 5)`, the two-point frame `exPts`, and a missing boundary in
the combined dashboard. -/
theorem camera_center_amended_witness :
    centerApp (some (35, 2, 37, 5)) exPts = ((2 + 5) / 2, (35 + 37) / 2) ∧
    centerApp none exPts
      = (((total_bounds exPts).2.1 + (total_bounds exPts).2.2.2) / 2,
         ((total_bounds exPts).1 + (total_bounds exPts).2.2.1) / 2) ∧
    centerApp none [] = ((2 + 5) / 2, (35 + 37) / 2) ∧
    (run1 (exRaw5, exGeo5, none) .combined (6/10) (5/10)).center
      = center1 (mergeLeft exRaw5 exGeo5) :=
  camera_center_amended (35, 2, 37, 5) exPts exRaw5 exGeo5 none .combined
    (6/10) (5/10) (by simp [exPts])

/-- C6: the grid fill color has four buckets with inclusive thresholds
0.40, 0.60, 0.80; the three lower buckets match the legend swatches, but
at any `p_hotspot_next >= 0.80` the code renders RGB `(220, 50, 47)`
while the legend swatch `#DC3230` is `(220, 50, 48)`. -/
theorem grid_color_legend_mismatch :
    rgbOf (get_fill_color (9/10)) = (220, 50, 47) ∧
    legendVeryHigh = (220, 50, 48) ∧
    rgbOf (get_fill_color (9/10)) ≠ legendVeryHigh ∧
    rgbOf (get_fill_color 0) = legendLow ∧
    rgbOf (get_fill_color (1/2)) = legendModerate ∧
    rgbOf (get_fill_color (7/10)) = legendHigh ∧
    rgbOf (get_fill_color (4/10)) = legendModerate ∧
    rgbOf (get_fill_color (6/10)) = legendHigh ∧
    rgbOf (get_fill_color (8/10)) = (220, 50, 47) := by
  norm_num [rgbOf, get_fill_color, legendLow, legendModerate, legendHigh,
    legendVeryHigh]

/-- C7: the merge is a left join on `cell_id`: every tabular row appears
in the merged result with its attributes intact, and a row with no
matching geometry keeps null coordinates instead of being dropped. -/
theorem merge_left_keeps_all_rows (df : List RawRow) (g : List GeoPoint) :
    ∀ r ∈ df, ∃ m ∈ mergeLeft df g,
      m.cell_id = r.cell_id ∧ m.mid_date = r.mid_date ∧
      m.p_hotspot_next = r.p_hotspot_next ∧
      m.anomaly_prob_norm = r.anomaly_prob_norm ∧
      ((∀ p ∈ g, p.cell_id ≠ r.cell_id) → m.lon = none ∧ m.lat = none) := by
  intro r hr
  rcases h : g.filter (fun p => p.cell_id == r.cell_id) with _ | ⟨p, ps⟩
  · refine ⟨⟨r.cell_id, r.mid_date, r.p_hotspot_next, r.anomaly_prob_norm,
      none, none⟩, ?_, rfl, rfl, rfl, rfl, fun _ => ⟨rfl, rfl⟩⟩
    simp only [mergeLeft, List.mem_flatMap]
    exact ⟨r, hr, by rw [h]; exact List.mem_singleton_self _⟩
  · refine ⟨⟨r.cell_id, r.mid_date, r.p_hotspot_next, r.anomaly_prob_norm,
      some p.lon, some p.lat⟩, ?_, rfl, rfl, rfl, rfl, ?_⟩
    · simp only [mergeLeft, List.mem_flatMap]
      refine ⟨r, hr, ?_⟩
      rw [h]
      exact List.mem_map_of_mem _ (List.mem_cons_self p ps)
    · intro hnone
      have hp : p ∈ g.filter (fun q => q.cell_id == r.cell_id) :=
        h ▸ List.mem_cons_self p ps
      have hm := List.mem_filter.mp hp
      exact absurd (by simpa using hm.2) (hnone p hm.1)

/-- Witness for `merge_left_keeps_all_rows`: a one-row table whose
`cell_id` 5 has no geo match survives the merge with null coordinates. -/
theorem merge_left_keeps_all_rows_witness :
    ∃ m ∈ mergeLeft exRaw7 exGeo7,
      m.cell_id = 5 ∧ m.mid_date = "e" ∧ m.p_hotspot_next = 1/2 ∧
      m.anomaly_prob_norm = 1/2 ∧
      ((∀ p ∈ exGeo7, p.cell_id ≠ 5) → m.lon = none ∧ m.lat = none) :=
  merge_left_keeps_all_rows exRaw7 exGeo7 ⟨5, "e", 1/2, 1/2⟩
    (by simp [exRaw7])

/-- C8: with a (dissolved, single-feature) boundary present the spatial
filter returns a sub-list of the input points — exactly those within the
boundary, no point duplicated — and with no boundary it returns the
input unchanged. -/
theorem spatial_filter_subset (b : (ℚ × ℚ) → Bool) (pts : List GRow) :
    (spatial_filter (some b) pts).Sublist pts ∧
    (∀ r, r ∈ spatial_filter (some b) pts ↔
        r ∈ pts ∧ b (r.lon, r.lat) = true) ∧
    (∀ r, (spatial_filter (some b) pts).count r ≤ pts.count r) ∧
    spatial_filter none pts = pts := by
  refine ⟨List.filter_sublist _, ?_, ?_, rfl⟩
  · intro r
    simp [spatial_filter, List.mem_filter]
  · intro r
    exact List.Sublist.count_le (List.filter_sublist _) r

/-- C9: in both loaders a boundary read failure is swallowed into a
`none` boundary (the other outputs unharmed), while a failure reading
the tabular or point data propagates out. -/
theorem loader_error_policy
    (df : List RawRow) (g : List GeoPoint) (b1 : Boundary1)
    (gr : List GRow) (tbl : List TRow) (bA : BoundaryApp)
    (e eb : String)
    (rg : Except String (List GeoPoint)) (rb : Except String Boundary1)
    (rc : Except String (List TRow)) (rbA : Except String BoundaryApp) :
    load_data1 (.ok df) (.ok g) (.error eb) = .ok (df, g, none) ∧
    load_data1 (.ok df) (.ok g) (.ok b1) = .ok (df, g, some b1) ∧
    load_data1 (.error e) rg rb = .error e ∧
    load_data1 (.ok df) (.error e) rb = .error e ∧
    load_dataApp (.ok gr) (.ok tbl) (.error eb) = .ok (gr, tbl, none) ∧
    load_dataApp (.ok gr) (.ok tbl) (.ok bA) = .ok (gr, tbl, some bA) ∧
    load_dataApp (.error e) rc rbA = .error e ∧
    load_dataApp (.ok gr) (.error e) rbA = .error e :=
  ⟨rfl, rfl, rfl, rfl, rfl, rfl, rfl, rfl⟩

/-- C10: in `streamlit1_app.py` the loaded boundary is dead data — two
successful loads that differ only in the boundary read produce identical
view rows, weight field, display table, download rows, and camera
center. -/
theorem boundary_noninterference (df : List RawRow) (g : List GeoPoint)
    (rb rb' : Except String Boundary1) (mode : LayerMode) (t1 t2 : ℚ)
    (l l' : List RawRow × List GeoPoint × Option Boundary1)
    (h : load_data1 (.ok df) (.ok g) rb = .ok l)
    (h' : load_data1 (.ok df) (.ok g) rb' = .ok l') :
    run1 l mode t1 t2 = run1 l' mode t1 t2 := by
  obtain ⟨la, lb, lc⟩ := l
  obtain ⟨ma, mb, mc⟩ := l'
  cases rb <;> cases rb' <;>
    simp only [load_data1, Except.ok.injEq, Prod.mk.injEq] at h h' <;>
    obtain ⟨rfl, rfl, -⟩ := h <;> obtain ⟨rfl, rfl, -⟩ := h' <;> rfl

/-- Witness for `boundary_noninterference`: a missing boundary versus a
loaded boundary ring give the same pipeline output on `exRaw5`
and `exGeo5`. -/
theorem boundary_noninterference_witness :
    run1 (exRaw5, exGeo5, (none : Option Boundary1)) .combined (6/10) (5/10)
      = run1 (exRaw5, exGeo5, some ([] : Boundary1)) .combined (6/10) (5/10) :=
  boundary_noninterference exRaw5 exGeo5 (.error "missing")
    (.ok ([] : Boundary1)) .combined (6/10) (5/10) _ _ rfl rfl

end Claims
